import Mathlib

/-!
Verification development for the supplier-invoice extraction pipeline.

The definitions below are a shallow embedding of the resilient extraction
orchestration layer: the failure classifier and retrying AI call
(app/services/ai_service.py), the circuit breaker (class CircuitBreaker in
the same file), the cache service (app/services/cache_service.py), the
response normalizer (clean_ai_response plus JSON parsing and schema
validation against app/schemas.py InvoiceData), the content fingerprinter
(app/utils.py calculate_file_hash), and the extraction endpoint
(app/api/v1/endpoints.py extract_invoice_text).

External effects (Redis, the Gemini API, OCR, the file system) are modelled
as explicit oracle parameters describing the outcome of each collaborator
interaction; wall-clock timestamps are modelled as natural numbers.
-/

namespace InvoiceAutomation

deriving instance DecidableEq for Except

/-! ## Failure classifier: AIService._is_transient_error -/

/-- Character-wise ASCII lowercasing, modelling Python str.lower on the
ASCII error strings the classifier compares against. -/
def pyLower (cs : List Char) : List Char := cs.map Char.toLower

/-- Boolean test that `pat` is a prefix of `l`. -/
def isPre : List Char → List Char → Bool
  | a :: as, b :: bs => a == b && isPre as bs
  | _ :: _, [] => false
  | [], _ => true

/-- Boolean substring containment (Python `pat in s`). -/
def containsSub (pat : List Char) : List Char → Bool
  | [] => pat.isEmpty
  | c :: rest => isPre pat (c :: rest) || containsSub pat rest

/-- The transient indicator list from AIService._is_transient_error, in
source order. -/
def transientIndicators : List String :=
  ["503", "502", "504", "500", "429", "timeout", "connection", "network",
   "quota exceeded"]

/-- AIService._is_transient_error: lowercase the error text and test for any
indicator as a substring. -/
def isTransientError (s : String) : Bool :=
  transientIndicators.any (fun ind => containsSub ind.toList (pyLower s.toList))

/-! ## Circuit breaker: class CircuitBreaker in ai_service.py -/

inductive BState where
  | closed
  | opened
  | halfOpen
deriving DecidableEq, Repr

structure CircuitBreaker where
  failure_threshold : Nat
  timeout : Nat
  failure_count : Nat
  last_failure_time : Option Nat
  state : BState
deriving DecidableEq, Repr

/-- Freshly constructed breaker (CircuitBreaker.__init__). -/
def CircuitBreaker.init (th timeout : Nat) : CircuitBreaker :=
  ⟨th, timeout, 0, none, .closed⟩

/-- CircuitBreaker._should_attempt_reset: true when no failure was recorded
or strictly more than `timeout` time units elapsed since the last one. -/
def CircuitBreaker.shouldAttemptReset (cb : CircuitBreaker) (now : Nat) : Bool :=
  match cb.last_failure_time with
  | none => true
  | some t => decide (cb.timeout < now - t)

/-- CircuitBreaker._on_success. -/
def CircuitBreaker.onSuccess (cb : CircuitBreaker) : CircuitBreaker :=
  { cb with failure_count := 0, state := .closed }

/-- CircuitBreaker._on_failure. -/
def CircuitBreaker.onFailure (cb : CircuitBreaker) (now : Nat) : CircuitBreaker :=
  { cb with
    failure_count := cb.failure_count + 1,
    last_failure_time := some now,
    state := if cb.failure_threshold ≤ cb.failure_count + 1 then .opened else cb.state }

/-- Observable outcome of CircuitBreaker.call. -/
inductive CallResult (ε α : Type) where
  | circuitOpen
  | succeeded (a : α)
  | failed (e : ε)
deriving DecidableEq

/-- The body of CircuitBreaker.call once the gate has been passed: run the
wrapped operation and update breaker state from its outcome. -/
def CircuitBreaker.runOp (cb : CircuitBreaker) (now : Nat) (op : Except ε α) :
    CircuitBreaker × CallResult ε α × Bool :=
  match op with
  | .ok a => (cb.onSuccess, .succeeded a, true)
  | .error e => (cb.onFailure now, .failed e, true)

/-- CircuitBreaker.call. The returned Bool records whether the wrapped
operation was invoked. `op` is the outcome the wrapped operation would
produce if invoked; `now` is the current timestamp. -/
def CircuitBreaker.call (cb : CircuitBreaker) (now : Nat) (op : Except ε α) :
    CircuitBreaker × CallResult ε α × Bool :=
  match cb.state with
  | .opened =>
    if cb.shouldAttemptReset now then
      CircuitBreaker.runOp { cb with state := .halfOpen } now op
    else (cb, .circuitOpen, false)
  | _ => cb.runOp now op

/-- Breaker states reachable from a freshly initialised breaker by any
sequence of calls at arbitrary timestamps with arbitrary outcomes. -/
inductive Reach : CircuitBreaker → Prop where
  | init (th timeout : Nat) : Reach (CircuitBreaker.init th timeout)
  | step (cb : CircuitBreaker) (now : Nat) (op : Except Unit Unit) :
      Reach cb → Reach (cb.call now op).1

/-- The breaker invariant: never at rest in HalfOpen, and whenever Open the
failure count has reached the threshold and a failure time is recorded. -/
def BreakerInv (cb : CircuitBreaker) : Prop :=
  cb.state ≠ BState.halfOpen ∧
    (cb.state = BState.opened →
      cb.failure_threshold ≤ cb.failure_count ∧ cb.last_failure_time ≠ none)

/-! ## Retrying AI call: AIService._call_gemini_api under tenacity -/

/-- Python whitespace characters recognised by str.strip and the regex
class backslash-s (ASCII range). -/
def isPySpace (c : Char) : Bool :=
  c == ' ' || c == '\t' || c == '\n' || c == '\r' ||
    c == Char.ofNat 11 || c == Char.ofNat 12

def pyStripList (cs : List Char) : List Char :=
  ((cs.dropWhile isPySpace).reverse.dropWhile isPySpace).reverse

/-- Python str.strip with no arguments, over ASCII whitespace. -/
def pyStrip (s : String) : String := ⟨pyStripList s.toList⟩

/-- Outcome of one underlying Gemini interaction inside
AIService._call_gemini_api: either generate_content returned a response
whose text attribute is `text`, or it raised an exception whose str is
`msg`. -/
inductive GeminiOutcome where
  | ok (text : String)
  | raiseErr (msg : String)

/-- The except-branch of _call_gemini_api: classify the error text and wrap
it in an AiServiceError message. The classification changes only the
message prefix. -/
def classifyWrap (msg : String) : String :=
  if isTransientError msg then "Transient error from Gemini API: " ++ msg
  else "Permanent error from Gemini API: " ++ msg

/-- One attempt of the body of _call_gemini_api: a falsy response text
raises the empty-response AiServiceError, which the except-branch of the
same function catches and re-classifies; any raised exception is classified
and wrapped; a truthy text is returned stripped. -/
def callGeminiOnce (o : GeminiOutcome) : Except String String :=
  match o with
  | .ok text =>
    if text = "" then Except.error (classifyWrap "Empty response from Gemini API")
    else Except.ok (pyStrip text)
  | .raiseErr msg => Except.error (classifyWrap msg)

/-- The tenacity retry loop: stop_after_attempt bounds total attempts,
retry_if_exception_type AiServiceError retries every failure the body can
raise (the body wraps every failure, transient or permanent, in
AiServiceError), reraise propagates the last failure unchanged. `behavior`
gives the outcome of the i-th underlying attempt; the second component of
the result is the number of attempts performed. -/
def tenacityRetry (behavior : Nat → GeminiOutcome) :
    Nat → Nat → Except String String × Nat
  | 0, i => (Except.error "", i)
  | n + 1, i =>
    match callGeminiOnce (behavior i) with
    | .ok t => (Except.ok t, i + 1)
    | .error e =>
      match n with
      | 0 => (Except.error e, i + 1)
      | m + 1 => tenacityRetry behavior (m + 1) (i + 1)

/-- AIService._call_gemini_api: the retry-decorated Gemini call with
stop_after_attempt 3. -/
def callGeminiApi (behavior : Nat → GeminiOutcome) : Except String String × Nat :=
  tenacityRetry behavior 3 0

/-- The breaker-guarded AI call in AIService.get_structured_data: the
circuit breaker wraps the whole retry-decorated _call_gemini_api. The last
component counts underlying attempts performed (0 when the breaker gates
the call). -/
def aiCallWithBreaker (cb : CircuitBreaker) (now : Nat)
    (behavior : Nat → GeminiOutcome) :
    CircuitBreaker × CallResult String String × Nat :=
  let r := callGeminiApi behavior
  let c := cb.call now r.1
  (c.1, c.2.1, if c.2.2 then r.2 else 0)

/-! ## JSON values and parsing (modelling Python json.loads) -/

/-- JSON value tree as produced by json.loads; numbers are modelled as
rationals (finite decimals). -/
inductive Json where
  | null
  | bool (b : Bool)
  | num (q : Rat)
  | str (s : String)
  | arr (xs : List Json)
  | obj (kvs : List (String × Json))

/-- Python truthiness of a parsed JSON value (None, False, 0, empty string,
empty list and empty dict are falsy). -/
def Json.truthy : Json → Bool
  | .null => false
  | .bool b => b
  | .num q => decide (q ≠ 0)
  | .str s => !(s.toList.isEmpty)
  | .arr xs => !xs.isEmpty
  | .obj kvs => !kvs.isEmpty

def lbrace : Char := Char.ofNat 123

def rbrace : Char := Char.ofNat 125

/-- JSON inter-token whitespace accepted by json.loads. -/
def isJsonWs (c : Char) : Bool :=
  c == ' ' || c == '\t' || c == '\n' || c == '\r'

def isDigitCh (c : Char) : Bool :=
  48 ≤ c.toNat && c.toNat ≤ 57

def digitVal (c : Char) : Nat := c.toNat - 48

def natOfDigits (ds : List Char) : Nat :=
  ds.foldl (fun acc c => acc * 10 + digitVal c) 0

def hexVal (c : Char) : Option Nat :=
  if 48 ≤ c.toNat && c.toNat ≤ 57 then some (c.toNat - 48)
  else if 97 ≤ c.toNat && c.toNat ≤ 102 then some (c.toNat - 87)
  else if 65 ≤ c.toNat && c.toNat ≤ 70 then some (c.toNat - 55)
  else none

/-- Single-character JSON string escapes, as the pair list the decoder
consults. -/
def escPairs : List (Char × Char) :=
  [('"', '"'), ('\\', '\\'), ('/', '/'), ('b', Char.ofNat 8),
   ('f', Char.ofNat 12), ('n', '\n'), ('r', '\r'), ('t', '\t')]

def escChar (c : Char) : Option Char :=
  (escPairs.find? (fun p => p.1 == c)).map (fun p => p.2)

/-- Body of a JSON string after the opening quote: returns the decoded
characters and the remainder after the closing quote. Strict mode: invalid
escapes and raw control characters are rejected. -/
def parseStringBody : Nat → List Char → Option (List Char × List Char)
  | 0, _ => none
  | _ + 1, [] => none
  | fuel + 1, c :: rest =>
    if c == '"' then some ([], rest)
    else if c == '\\' then
      match rest with
      | [] => none
      | e :: rest2 =>
        if e == 'u' then
          match rest2 with
          | h1 :: h2 :: h3 :: h4 :: rest3 =>
            match hexVal h1, hexVal h2, hexVal h3, hexVal h4 with
            | some a, some b, some c2, some d =>
              (parseStringBody fuel rest3).map
                (fun p => (Char.ofNat (((a * 16 + b) * 16 + c2) * 16 + d) :: p.1, p.2))
            | _, _, _, _ => none
          | _ => none
        else
          match escChar e with
          | some ec => (parseStringBody fuel rest2).map (fun p => (ec :: p.1, p.2))
          | none => none
    else if c.toNat < 32 then none
    else (parseStringBody fuel rest).map (fun p => (c :: p.1, p.2))

/-- Optional fraction part after the integer digits. -/
def parseFrac (cs : List Char) : Option (List Char × List Char) :=
  match cs with
  | c :: rest =>
    if c == '.' then
      let fds := rest.takeWhile isDigitCh
      if fds.isEmpty then none else some (fds, rest.drop fds.length)
    else some ([], cs)
  | [] => some ([], [])

/-- Optional exponent part. -/
def parseExp (cs : List Char) : Option (Bool × Nat × List Char) :=
  match cs with
  | c :: rest =>
    if c == 'e' || c == 'E' then
      let p := match rest with
        | d :: r2 =>
          if d == '+' then (false, r2)
          else if d == '-' then (true, r2)
          else (false, rest)
        | [] => (false, ([] : List Char))
      let eds := p.2.takeWhile isDigitCh
      if eds.isEmpty then none
      else some (p.1, natOfDigits eds, p.2.drop eds.length)
    else some (false, 0, cs)
  | [] => some (false, 0, [])

/-- Assemble a rational from sign, integer digits, fraction digits and
exponent, using only integer arithmetic and one normalising division. -/
def assembleRat (neg : Bool) (ipart : Nat) (fds : List Char) (esign : Bool)
    (e : Nat) : Rat :=
  let mantissa : Nat := ipart * 10 ^ fds.length + natOfDigits fds
  let mAbs : Nat := if esign then mantissa else mantissa * 10 ^ e
  let den : Nat := if esign then 10 ^ (fds.length + e) else 10 ^ fds.length
  let m : Int := if neg then Int.negOfNat mAbs else Int.ofNat mAbs
  mkRat m den

/-- JSON number literal: optional minus, integer digits without leading
zeros, optional fraction and exponent. -/
def parseNumber (cs : List Char) : Option (Rat × List Char) :=
  let p := match cs with
    | c :: rest => if c == '-' then (true, rest) else (false, cs)
    | [] => (false, ([] : List Char))
  let ds := p.2.takeWhile isDigitCh
  let cs2 := p.2.drop ds.length
  if ds.isEmpty then none
  else if decide (1 < ds.length) && (ds.head? == some '0') then none
  else
    match parseFrac cs2 with
    | none => none
    | some (fds, cs3) =>
      match parseExp cs3 with
      | none => none
      | some (esign, e, cs4) =>
        some (assembleRat p.1 (natOfDigits ds) fds esign e, cs4)

mutual

/-- Parse one JSON value from the input, skipping leading whitespace. -/
def parseValue : Nat → List Char → Option (Json × List Char)
  | 0, _ => none
  | fuel + 1, cs =>
    let cs2 := cs.dropWhile isJsonWs
    match cs2 with
    | [] => none
    | c :: rest =>
      if c == lbrace then parseObjBody fuel (rest.dropWhile isJsonWs)
      else if c == '[' then parseArrBody fuel (rest.dropWhile isJsonWs)
      else if c == '"' then
        match parseStringBody (rest.length + 1) rest with
        | some (body, rem) => some (.str ⟨body⟩, rem)
        | none => none
      else if isPre "true".toList cs2 then some (.bool true, cs2.drop 4)
      else if isPre "false".toList cs2 then some (.bool false, cs2.drop 5)
      else if isPre "null".toList cs2 then some (.null, cs2.drop 4)
      else
        match parseNumber cs2 with
        | some (q, rem) => some (.num q, rem)
        | none => none

/-- Object body after the opening brace (leading whitespace removed). -/
def parseObjBody : Nat → List Char → Option (Json × List Char)
  | 0, _ => none
  | fuel + 1, cs =>
    match cs with
    | [] => none
    | c :: rest =>
      if c == rbrace then some (.obj [], rest)
      else parseMembers fuel (c :: rest) []

/-- One or more comma-separated key-value members followed by the closing
brace. -/
def parseMembers : Nat → List Char → List (String × Json) →
    Option (Json × List Char)
  | 0, _, _ => none
  | fuel + 1, cs, acc =>
    let cs2 := cs.dropWhile isJsonWs
    match cs2 with
    | [] => none
    | c :: rest =>
      if c == '"' then
        match parseStringBody (rest.length + 1) rest with
        | some (kbody, rem) =>
          let rem2 := rem.dropWhile isJsonWs
          match rem2 with
          | d :: rem3 =>
            if d == ':' then
              match parseValue fuel rem3 with
              | some (v, rem4) =>
                let rem5 := rem4.dropWhile isJsonWs
                match rem5 with
                | e2 :: rem6 =>
                  if e2 == ',' then
                    parseMembers fuel rem6 (acc ++ [(⟨kbody⟩, v)])
                  else if e2 == rbrace then
                    some (.obj (acc ++ [(⟨kbody⟩, v)]), rem6)
                  else none
                | [] => none
              | none => none
            else none
          | [] => none
        | none => none
      else none

/-- Array body after the opening bracket (leading whitespace removed). -/
def parseArrBody : Nat → List Char → Option (Json × List Char)
  | 0, _ => none
  | fuel + 1, cs =>
    match cs with
    | [] => none
    | c :: rest =>
      if c == ']' then some (.arr [], rest)
      else parseElems fuel (c :: rest) []

/-- One or more comma-separated array elements followed by the closing
bracket. -/
def parseElems : Nat → List Char → List Json → Option (Json × List Char)
  | 0, _, _ => none
  | fuel + 1, cs, acc =>
    match parseValue fuel cs with
    | some (v, rem) =>
      let rem2 := rem.dropWhile isJsonWs
      match rem2 with
      | c :: rem3 =>
        if c == ',' then parseElems fuel rem3 (acc ++ [v])
        else if c == ']' then some (.arr (acc ++ [v]), rem3)
        else none
      | [] => none
    | none => none

end

/-- json.loads: parse a complete JSON document; trailing whitespace is
allowed, anything else after the value is an error. -/
def Json.parse (s : String) : Option Json :=
  let cs := s.toList
  match parseValue (3 * cs.length + 3) cs with
  | some (v, rem) => if (rem.dropWhile isJsonWs).isEmpty then some v else none
  | none => none

/-! ## Schema validation: app/schemas.py InvoiceData under pydantic -/

/-- A calendar date as parsed by pydantic for Optional date fields. -/
structure PyDate where
  year : Nat
  month : Nat
  day : Nat
deriving DecidableEq, Repr

def isLeapYear (y : Nat) : Bool :=
  y % 4 == 0 && (y % 100 != 0 || y % 400 == 0)

def daysInMonth (y m : Nat) : Nat :=
  if m == 2 then (if isLeapYear y then 29 else 28)
  else if m == 4 || m == 6 || m == 9 || m == 11 then 30
  else 31

/-- ISO calendar date string YYYY-MM-DD, the date format the schema fields
receive. -/
def parseIsoDate (s : String) : Option PyDate :=
  match s.toList with
  | [a, b, c, d, h1, e, f, h2, g, h] =>
    if h1 == '-' && h2 == '-' &&
        [a, b, c, d, e, f, g, h].all isDigitCh then
      let y := natOfDigits [a, b, c, d]
      let m := natOfDigits [e, f]
      let dd := natOfDigits [g, h]
      if 1 ≤ m && m ≤ 12 && 1 ≤ dd && dd ≤ daysInMonth y m then
        some ⟨y, m, dd⟩
      else none
    else none
  | _ => none

/-- app/schemas.py ExtractedItem. -/
structure ExtractedItem where
  description : String
  quantity : Rat
  unit_price : Rat
  total_price : Rat
deriving DecidableEq, Repr

/-- app/schemas.py InvoiceData (field for field; ExtractionResponse in the
same file has the identical shape). -/
structure InvoiceData where
  invoice_number : String
  invoice_date : Option PyDate
  due_date : Option PyDate
  vendor_name : String
  vendor_address : Option String
  customer_name : Option String
  customer_address : Option String
  subtotal : Rat
  tax : Rat
  total : Rat
  currency : String
  items : List ExtractedItem
deriving DecidableEq, Repr

/-- Dictionary lookup on a parsed JSON object; duplicate keys resolve to the
last occurrence, as in a Python dict built by json.loads. -/
def objGet (kvs : List (String × Json)) (k : String) : Option Json :=
  (kvs.reverse.find? (fun p => p.1 == k)).map (fun p => p.2)

/-- pydantic lax validation for a required str field: only strings are
accepted. -/
def asStr : Json → Option String
  | .str s => some s
  | _ => none

/-- Numeric literal accepted by the str-to-float lax coercion: optional
sign, digits around an optional point, optional exponent; the whole string
must be consumed. -/
def parseFloatLit (cs : List Char) : Option Rat :=
  let p := match cs with
    | c :: rest =>
      if c == '-' then (true, rest)
      else if c == '+' then (false, rest)
      else (false, cs)
    | [] => (false, ([] : List Char))
  let ids := p.2.takeWhile isDigitCh
  let cs2 := p.2.drop ids.length
  let q := match cs2 with
    | c :: rest =>
      if c == '.' then (rest.takeWhile isDigitCh, rest.drop (rest.takeWhile isDigitCh).length)
      else (([] : List Char), cs2)
    | [] => (([] : List Char), cs2)
  if ids.isEmpty && q.1.isEmpty then none
  else
    match parseExp q.2 with
    | none => none
    | some (esign, e, rem) =>
      if rem.isEmpty then some (assembleRat p.1 (natOfDigits ids) q.1 esign e)
      else none

/-- pydantic lax validation for a required float field: numbers pass
through, numeric strings are coerced, everything else (including booleans
and non-numeric strings) fails. Modelled over finite decimal literals. -/
def asFloat : Json → Option Rat
  | .num q => some q
  | .str s => parseFloatLit (pyStripList s.toList)
  | _ => none

/-- Optional str field: absent or null becomes none, a string passes,
anything else fails. -/
def asOptStrField : Option Json → Option (Option String)
  | none => some none
  | some .null => some none
  | some (.str s) => some (some s)
  | some _ => none

/-- Optional date field: absent or null becomes none, an ISO date string
parses, anything else fails. Modelled over the ISO YYYY-MM-DD form. -/
def asOptDateField : Option Json → Option (Option PyDate)
  | none => some none
  | some .null => some none
  | some (.str s) => (parseIsoDate s).map some
  | some _ => none

/-- Validation of one line item dict against ExtractedItem. -/
def validateItem (j : Json) : Option ExtractedItem :=
  match j with
  | .obj kvs => do
    let d ← (objGet kvs "description").bind asStr
    let q ← (objGet kvs "quantity").bind asFloat
    let u ← (objGet kvs "unit_price").bind asFloat
    let t ← (objGet kvs "total_price").bind asFloat
    pure ⟨d, q, u, t⟩
  | _ => none

/-- InvoiceData(**extracted_data): validation of the parsed JSON value
against the schema, with the defaults currency USD and empty items. A
non-dict value fails outright. -/
def validateInvoiceData (j : Json) : Option InvoiceData :=
  match j with
  | .obj kvs => do
    let inum ← (objGet kvs "invoice_number").bind asStr
    let idate ← asOptDateField (objGet kvs "invoice_date")
    let ddate ← asOptDateField (objGet kvs "due_date")
    let vname ← (objGet kvs "vendor_name").bind asStr
    let vaddr ← asOptStrField (objGet kvs "vendor_address")
    let cname ← asOptStrField (objGet kvs "customer_name")
    let caddr ← asOptStrField (objGet kvs "customer_address")
    let sub ← (objGet kvs "subtotal").bind asFloat
    let tax ← (objGet kvs "tax").bind asFloat
    let tot ← (objGet kvs "total").bind asFloat
    let cur ← match objGet kvs "currency" with
      | none => some "USD"
      | some v => asStr v
    let its ← match objGet kvs "items" with
      | none => some ([] : List ExtractedItem)
      | some (.arr xs) => xs.mapM validateItem
      | some _ => none
    pure ⟨inum, idate, ddate, vname, vaddr, cname, caddr, sub, tax, tot, cur, its⟩
  | _ => none

/-! ## Response normalizer: clean_ai_response and the parse/validate path of
AIService.get_structured_data -/

def fence : List Char := "```".toList

/-- Split at the first occurrence of the triple-backtick fence, returning
the text before it and the text after it. -/
def splitFence : List Char → Option (List Char × List Char)
  | [] => none
  | c :: rest =>
    if isPre fence (c :: rest) then some ([], (c :: rest).drop 3)
    else (splitFence rest).map (fun p => (c :: p.1, p.2))

/-- clean_ai_response: strip the raw text; if a fenced block (with optional
json tag) is present, extract its innermost content and strip it, otherwise
keep the stripped text. Mirrors the lazy regex search of the source: the
matched block runs from the first fence to the next fence after it, and the
whitespace the regex absorbs around the group is removed by the final
strip. -/
def clean_ai_response (s : String) : String :=
  let t := pyStripList s.toList
  match splitFence t with
  | none => ⟨t⟩
  | some p =>
    let rest2 := if isPre "json".toList p.2 then p.2.drop 4 else p.2
    match splitFence rest2 with
    | none => ⟨t⟩
    | some q => ⟨pyStripList q.1⟩

/-- Failure kinds of the normalization path of get_structured_data. -/
inductive NormError where
  | emptyResponse
  | malformedResponse
  | schemaValidationFailed
deriving DecidableEq, Repr

/-- The response-normalization section of AIService.get_structured_data:
reject blank text, clean the fences, parse as JSON, validate against
InvoiceData. -/
def normalize (raw : String) : Except NormError InvoiceData :=
  if raw = "" || pyStrip raw = "" then Except.error NormError.emptyResponse
  else
    match Json.parse (clean_ai_response raw) with
    | none => Except.error NormError.malformedResponse
    | some j =>
      match validateInvoiceData j with
      | some d => Except.ok d
      | none => Except.error NormError.schemaValidationFailed

/-! ## Cache service and the extraction endpoint -/

/-- CacheService.get over the outcome of the Redis GET: a backend error is
swallowed and treated as a miss; an absent or empty value is a miss; a
present value is parsed as JSON, with a parse failure also swallowed as a
miss. -/
def cacheServiceGet (backendGet : Except Unit (Option String)) : Option Json :=
  match backendGet with
  | .error _ => none
  | .ok none => none
  | .ok (some v) => if v = "" then none else Json.parse v

/-- CacheService.set over the outcome of the Redis SETEX: a backend error
yields false, otherwise the backend result is reported. -/
def cacheServiceSet (backendSet : Except Unit Bool) : Bool :=
  match backendSet with
  | .error _ => false
  | .ok b => b

/-- CacheService.check over the outcome of the Redis EXISTS: a backend
error yields false. -/
def cacheServiceCheck (backendExists : Except Unit Bool) : Bool :=
  match backendExists with
  | .error _ => false
  | .ok b => b

/-- Per-request behavior of the cache backend for the fingerprint at hand. -/
structure CacheBackend where
  getR : Except Unit (Option String)
  setR : Except Unit Bool

/-- Caller-visible outcome of the extraction endpoint. -/
inductive ExtractOutcome where
  | success (r : InvoiceData)
  | fileProcessingError
  | ocrFailed
  | aiFailed
deriving DecidableEq, Repr

/-- The cache-miss path of extract_invoice_text: OCR, then the AI service,
then a best-effort cache write whose result is ignored. The two booleans
record whether OCR and the AI service were invoked. -/
def extractMissPath (cache : CacheBackend) (ocr : Except Unit String)
    (ai : String → Except Unit InvoiceData) : ExtractOutcome × Bool × Bool :=
  match ocr with
  | .error _ => (.ocrFailed, true, false)
  | .ok text =>
    match ai text with
    | .error _ => (.aiFailed, true, true)
    | .ok r =>
      let _ := cacheServiceSet cache.setR
      (.success r, true, true)

/-- The extraction endpoint extract_invoice_text after fingerprinting:
cache lookup, truthiness test on the cached value, re-validation of the
cached record, and the miss path. `ocr` and `ai` are the outcomes the
collaborators would produce if invoked. -/
def extract_invoice_text (cache : CacheBackend) (ocr : Except Unit String)
    (ai : String → Except Unit InvoiceData) : ExtractOutcome × Bool × Bool :=
  match cacheServiceGet cache.getR with
  | some j =>
    if j.truthy then
      match validateInvoiceData j with
      | some r => (.success r, false, false)
      | none => (.fileProcessingError, false, false)
    else extractMissPath cache ocr ai
  | none => extractMissPath cache ocr ai

/-! ## Content fingerprinter: app/utils.py calculate_file_hash (SHA-256) -/

/-- Two to the thirty-second power, the word modulus of SHA-256. -/
def M32 : Nat := 4294967296

def rotr (n w : Nat) : Nat := (w / 2 ^ n + w % 2 ^ n * 2 ^ (32 - n)) % M32

def shr (n w : Nat) : Nat := w / 2 ^ n

def xor3 (a b c : Nat) : Nat := Nat.xor (Nat.xor a b) c

def smallSigma0 (w : Nat) : Nat := xor3 (rotr 7 w) (rotr 18 w) (shr 3 w)

def smallSigma1 (w : Nat) : Nat := xor3 (rotr 17 w) (rotr 19 w) (shr 10 w)

def bigSigma0 (w : Nat) : Nat := xor3 (rotr 2 w) (rotr 13 w) (rotr 22 w)

def bigSigma1 (w : Nat) : Nat := xor3 (rotr 6 w) (rotr 11 w) (rotr 25 w)

def chF (e f g : Nat) : Nat :=
  Nat.xor (Nat.land e f) (Nat.land (Nat.xor e 4294967295) g)

def majF (a b c : Nat) : Nat :=
  Nat.xor (Nat.xor (Nat.land a b) (Nat.land a c)) (Nat.land b c)

/-- The 64 SHA-256 round constants. -/
def K256 : List Nat :=
  [1116352408, 1899447441, 3049323471, 3921009573, 961987163,
   1508970993, 2453635748, 2870763221, 3624381080, 310598401,
   607225278, 1426881987, 1925078388, 2162078206, 2614888103,
   3248222580, 3835390401, 4022224774, 264347078, 604807628,
   770255983, 1249150122, 1555081692, 1996064986, 2554220882,
   2821834349, 2952996808, 3210313671, 3336571891, 3584528711,
   113926993, 338241895, 666307205, 773529912, 1294757372,
   1396182291, 1695183700, 1986661051, 2177026350, 2456956037,
   2730485921, 2820302411, 3259730800, 3345764771, 3516065817,
   3600352804, 4094571909, 275423344, 430227734, 506948616,
   659060556, 883997877, 958139571, 1322822218, 1537002063,
   1747873779, 1955562222, 2024104815, 2227730452, 2361852424,
   2428436474, 2756734187, 3204031479, 3329325298]

/-- SHA-256 working and chaining state: eight 32-bit words. -/
structure Hash8 where
  h0 : Nat
  h1 : Nat
  h2 : Nat
  h3 : Nat
  h4 : Nat
  h5 : Nat
  h6 : Nat
  h7 : Nat
deriving DecidableEq, Repr

/-- The SHA-256 initial hash value. -/
def H256init : Hash8 :=
  ⟨1779033703, 3144134277, 1013904242, 2773480762,
   1359893119, 2600822924, 528734635, 1541459225⟩

/-- Merkle-Damgard padding: append the 0x80 byte, zeros to 56 mod 64, and
the 64-bit big-endian bit length. -/
def sha256pad (msg : List Nat) : List Nat :=
  let L := msg.length
  let k := (119 - L % 64) % 64
  let bitlen := 8 * L
  msg ++ [128] ++ List.replicate k 0 ++
    [bitlen / 2 ^ 56 % 256, bitlen / 2 ^ 48 % 256, bitlen / 2 ^ 40 % 256,
     bitlen / 2 ^ 32 % 256, bitlen / 2 ^ 24 % 256, bitlen / 2 ^ 16 % 256,
     bitlen / 2 ^ 8 % 256, bitlen % 256]

/-- Split the padded message into 64-byte chunks. -/
def toChunks : Nat → List Nat → List (List Nat)
  | 0, _ => []
  | _ + 1, [] => []
  | fuel + 1, l => l.take 64 :: toChunks fuel (l.drop 64)

/-- Big-endian assembly of 4-byte groups into 32-bit words. -/
def bytesToWords : List Nat → List Nat
  | b0 :: b1 :: b2 :: b3 :: rest =>
    (((b0 * 256 + b1) * 256 + b2) * 256 + b3) :: bytesToWords rest
  | _ => []

/-- Extend the 16 message words to the 64-entry schedule. -/
def extendWords : Nat → List Nat → List Nat
  | 0, ws => ws
  | n + 1, ws =>
    let i := ws.length
    let w := (ws.getD (i - 16) 0 + smallSigma0 (ws.getD (i - 15) 0) +
              ws.getD (i - 7) 0 + smallSigma1 (ws.getD (i - 2) 0)) % M32
    extendWords n (ws ++ [w])

/-- One SHA-256 compression round. -/
def compressRound (st : Hash8) (wk : Nat × Nat) : Hash8 :=
  let t1 := (st.h7 + bigSigma1 st.h4 + chF st.h4 st.h5 st.h6 + wk.2 + wk.1) % M32
  let t2 := (bigSigma0 st.h0 + majF st.h0 st.h1 st.h2) % M32
  ⟨(t1 + t2) % M32, st.h0, st.h1, st.h2, (st.h3 + t1) % M32, st.h4, st.h5, st.h6⟩

/-- Process one 64-byte chunk against the chaining value. -/
def processChunk (H : Hash8) (chunk : List Nat) : Hash8 :=
  let ws := extendWords 48 (bytesToWords chunk)
  let st := (ws.zip K256).foldl compressRound H
  ⟨(H.h0 + st.h0) % M32, (H.h1 + st.h1) % M32, (H.h2 + st.h2) % M32,
   (H.h3 + st.h3) % M32, (H.h4 + st.h4) % M32, (H.h5 + st.h5) % M32,
   (H.h6 + st.h6) % M32, (H.h7 + st.h7) % M32⟩

/-- The SHA-256 digest of a byte sequence, as eight 32-bit words. -/
def sha256words (msg : List Nat) : Hash8 :=
  (toChunks (sha256pad msg).length (sha256pad msg)).foldl processChunk H256init

def hexChar (n : Nat) : Char :=
  if n < 10 then Char.ofNat (48 + n) else Char.ofNat (87 + n)

/-- Eight lowercase hex digits of a 32-bit word, most significant first. -/
def toHex8 (w : Nat) : List Char :=
  [hexChar (w / 2 ^ 28 % 16), hexChar (w / 2 ^ 24 % 16), hexChar (w / 2 ^ 20 % 16),
   hexChar (w / 2 ^ 16 % 16), hexChar (w / 2 ^ 12 % 16), hexChar (w / 2 ^ 8 % 16),
   hexChar (w / 2 ^ 4 % 16), hexChar (w % 16)]

/-- hashlib sha256 hexdigest over a byte sequence. -/
def sha256hex (msg : List Nat) : String :=
  let H := sha256words msg
  ⟨toHex8 H.h0 ++ toHex8 H.h1 ++ toHex8 H.h2 ++ toHex8 H.h3 ++
   toHex8 H.h4 ++ toHex8 H.h5 ++ toHex8 H.h6 ++ toHex8 H.h7⟩

/-- app/utils.py calculate_file_hash: reject an absent value with a
ValueError, otherwise return the SHA-256 hexdigest of the bytes. The
isinstance check of the source is carried by the type of the argument. -/
def calculate_file_hash (file_content : Option (List Nat)) : Except String String :=
  match file_content with
  | none => Except.error "file_content cannot be None"
  | some b => Except.ok (sha256hex b)

def hexDigits : List Char := "0123456789abcdef".toList


/-! ## Concrete example values used by the claim theorems -/

/-- A breaker driven Open by one failing call at threshold 1: used as a
concrete reachable Open state. -/
def cbOpenExample : CircuitBreaker :=
  ((CircuitBreaker.init 1 10).call 0 (Except.error () : Except Unit Unit)).1

/-- The fenced AI response of the round-trip scenario. -/
def sampleFenced : String :=
  "```json\n\x7b\"invoice_number\":\"INV-1\",\"vendor_name\":\"Acme\",\"subtotal\":10,\"tax\":1,\"total\":11,\"currency\":\"USD\",\"items\":[]\x7d\n```"

/-- The same response with a non-numeric total. -/
def sampleBadTotal : String :=
  "```json\n\x7b\"invoice_number\":\"INV-1\",\"vendor_name\":\"Acme\",\"subtotal\":10,\"tax\":1,\"total\":\"not-a-number\",\"currency\":\"USD\",\"items\":[]\x7d\n```"

/-- The validated record the round-trip scenario produces. -/
def sampleRecord : InvoiceData :=
  ⟨"INV-1", none, none, "Acme", none, none, none, 10, 1, 11, "USD", []⟩

/-- Serialized form of the sample record as it would sit in the cache. -/
def sampleCached : String :=
  "\x7b\"invoice_number\":\"INV-1\",\"vendor_name\":\"Acme\",\"subtotal\":10,\"tax\":1,\"total\":11,\"currency\":\"USD\",\"items\":[]\x7d"

/-- The JSON tree json.loads produces for the serialized sample record. -/
def sampleCachedJson : Json :=
  Json.obj [("invoice_number", Json.str "INV-1"), ("vendor_name", Json.str "Acme"),
    ("subtotal", Json.num 10), ("tax", Json.num 1), ("total", Json.num 11),
    ("currency", Json.str "USD"), ("items", Json.arr [])]

/-- Attempt behavior exhibiting the C2 divergence: the first underlying
attempt fails with a permanently-classified error, the second succeeds. -/
def permanentThenOk : Nat → GeminiOutcome :=
  fun i => if i = 0 then GeminiOutcome.raiseErr "invalid api key"
           else GeminiOutcome.ok "second response"

/-! ## Helper lemmas -/

theorem isPre_iff (pat l : List Char) : isPre pat l = true ↔ pat <+: l := by
  induction pat generalizing l with
  | nil => simp [isPre, List.nil_prefix]
  | cons a as ih =>
    cases l with
    | nil => simp [isPre]
    | cons b bs =>
      simp only [isPre, Bool.and_eq_true, beq_iff_eq, ih, List.cons_prefix_cons]

theorem containsSub_iff (pat l : List Char) : containsSub pat l = true ↔ pat <:+: l := by
  induction l with
  | nil => simp [containsSub, List.isEmpty_iff, List.infix_nil]
  | cons c rest ih =>
    simp only [containsSub, Bool.or_eq_true, isPre_iff, ih, List.infix_cons_iff]

theorem breakerInv_step (cb : CircuitBreaker) (now : Nat) (op : Except ε α)
    (h : BreakerInv cb) : BreakerInv (cb.call now op).1 := by
  obtain ⟨ihHalf, ihOpen⟩ := h
  cases hst : cb.state with
  | closed =>
    cases op with
    | ok a =>
      simp [BreakerInv, CircuitBreaker.call, hst, CircuitBreaker.runOp,
        CircuitBreaker.onSuccess]
    | error e =>
      simp only [BreakerInv, CircuitBreaker.call, hst, CircuitBreaker.runOp,
        CircuitBreaker.onFailure]
      constructor
      · split <;> simp
      · intro hopn
        refine ⟨?_, by simp⟩
        by_contra hlt
        have := Nat.lt_of_not_le hlt
        simp only [Nat.not_le.mpr this, if_neg (Nat.not_le.mpr this)] at hopn
        simp [hst] at hopn
  | opened =>
    have hop := ihOpen hst
    by_cases hres : cb.shouldAttemptReset now = true
    · cases op with
      | ok a =>
        simp [BreakerInv, CircuitBreaker.call, hst, hres, CircuitBreaker.runOp,
          CircuitBreaker.onSuccess]
      | error e =>
        have hth : cb.failure_threshold ≤ cb.failure_count + 1 :=
          Nat.le_succ_of_le hop.1
        simp [BreakerInv, CircuitBreaker.call, hst, hres, CircuitBreaker.runOp,
          CircuitBreaker.onFailure, hth]
    · simp only [CircuitBreaker.call, hst, hres, if_false, Bool.false_eq_true]
      exact ⟨by simp [hst], fun _ => hop⟩
  | halfOpen => exact absurd hst ihHalf

/-- Inductive invariant of the breaker state machine over reachable states. -/
theorem reach_invariant (cb : CircuitBreaker) (h : Reach cb) : BreakerInv cb := by
  induction h with
  | init th timeout => exact ⟨by simp [CircuitBreaker.init], by simp [CircuitBreaker.init]⟩
  | step cb2 now op hr ih => exact breakerInv_step cb2 now op ih

theorem hexChar_mem (n : Nat) (h : n < 16) : hexChar n ∈ hexDigits := by
  interval_cases n <;> decide

theorem toHex8_mem (w : Nat) (c : Char) (hc : c ∈ toHex8 w) : c ∈ hexDigits := by
  simp only [toHex8, List.mem_cons, List.not_mem_nil, or_false] at hc
  rcases hc with h | h | h | h | h | h | h | h <;>
    exact h ▸ hexChar_mem _ (Nat.mod_lt _ (by decide))

theorem toHex8_length (w : Nat) : (toHex8 w).length = 8 := rfl

theorem sha256hex_length (msg : List Nat) : (sha256hex msg).length = 64 := by
  simp [sha256hex, String.length, toHex8_length]

theorem sha256hex_hex (msg : List Nat) (c : Char) (hc : c ∈ (sha256hex msg).data) :
    c ∈ hexDigits := by
  simp only [sha256hex, List.mem_append] at hc
  rcases hc with ((((((h | h) | h) | h) | h) | h) | h) | h <;> exact toHex8_mem _ _ h

/-- Validation of the embedding against the standard empty-message test
vector. -/
theorem sha256_empty_vector :
    sha256hex [] =
      "e3b0c44298fc1c149afbf4c8996fb92427ae41e4649b934ca495991b7852b855" := by
  decide

/-- Validation of the embedding against the standard abc test vector. -/
theorem sha256_abc_vector :
    sha256hex [97, 98, 99] =
      "ba7816bf8f01cfea414140de5dae2223b00361a396177a9cb410ff61f20015ad" := by
  decide

/-! ## Claim theorems for the breaker and the classifier -/

/-- C6: the failure classifier returns Transient exactly when the error text
contains, case-insensitively, at least one of the fixed indicators
429 / 500 / 502 / 503 / 504 / timeout / connection / network / quota exceeded
as a substring; every other string is classified Permanent. -/
theorem classifier_transient_iff_indicator (s : String) :
    isTransientError s = true ↔
      ∃ ind ∈ transientIndicators, ind.toList <:+: pyLower s.toList := by
  simp only [isTransientError, List.any_eq_true, containsSub_iff]

/-- C3: from Closed, a failing call increments failure_count and records
last_failure_time; when the count reaches failure_threshold the breaker
becomes Open, below the threshold it stays Closed; and any call while Open
within the cooldown fails with CircuitOpen without invoking the operation
and without changing the breaker. -/
theorem breaker_threshold_and_fail_fast {ε α : Type}
    (cb : CircuitBreaker) (now : Nat) (e : ε) (op : Except ε α) (t : Nat) :
    (cb.state = BState.closed →
      (cb.call now (Except.error e : Except ε α)).1.failure_count = cb.failure_count + 1 ∧
      (cb.call now (Except.error e : Except ε α)).1.last_failure_time = some now ∧
      (cb.call now (Except.error e : Except ε α)).2.1 = CallResult.failed e ∧
      (cb.call now (Except.error e : Except ε α)).2.2 = true ∧
      (cb.failure_threshold ≤ cb.failure_count + 1 →
        (cb.call now (Except.error e : Except ε α)).1.state = BState.opened) ∧
      (cb.failure_count + 1 < cb.failure_threshold →
        (cb.call now (Except.error e : Except ε α)).1.state = BState.closed)) ∧
    (cb.state = BState.opened → cb.last_failure_time = some t →
      now - t ≤ cb.timeout →
      cb.call now op = (cb, CallResult.circuitOpen, false)) := by
  constructor
  · intro hst
    have hcall : cb.call now (Except.error e : Except ε α) =
        (cb.onFailure now, CallResult.failed e, true) := by
      simp [CircuitBreaker.call, hst, CircuitBreaker.runOp]
    refine ⟨by simp [hcall, CircuitBreaker.onFailure],
            by simp [hcall, CircuitBreaker.onFailure],
            by simp [hcall], by simp [hcall],
            fun hth => by simp [hcall, CircuitBreaker.onFailure, hth],
            fun hlt => ?_⟩
    simp [hcall, CircuitBreaker.onFailure, Nat.not_le.mpr hlt, hst]
  · intro hst hlast hcool
    have hres : cb.shouldAttemptReset now = false := by
      simp [CircuitBreaker.shouldAttemptReset, hlast, Nat.not_lt.mpr hcool]
    simp [CircuitBreaker.call, hst, hres]

/-- C3 witness: with failure_threshold 2, two failing calls walk the breaker
Closed to Closed (count 1) to Open, and a further call within the cooldown
fails fast with CircuitOpen, leaving the breaker untouched. -/
theorem breaker_threshold_and_fail_fast_witness :
    ((CircuitBreaker.mk 2 60 0 none BState.closed).call 5
        (Except.error 0 : Except Nat Nat)).1.failure_count = 1 ∧
    (((CircuitBreaker.mk 2 60 0 none BState.closed).call 5
        (Except.error 0 : Except Nat Nat)).1.failure_count = 0 + 1 ∧
      ((CircuitBreaker.mk 2 60 1 (some 5) BState.closed).call 6
        (Except.error 0 : Except Nat Nat)).1.state = BState.opened) ∧
    (CircuitBreaker.mk 2 60 2 (some 6) BState.opened).call 30
        (Except.error 0 : Except Nat Nat) =
      (CircuitBreaker.mk 2 60 2 (some 6) BState.opened,
        CallResult.circuitOpen, false) := by
  refine ⟨?_, ⟨?_, ?_⟩, ?_⟩
  · exact ((breaker_threshold_and_fail_fast
      (CircuitBreaker.mk 2 60 0 none BState.closed) 5 (0 : Nat)
      (Except.error 0 : Except Nat Nat) 0).1 rfl).1
  · exact ((breaker_threshold_and_fail_fast
      (CircuitBreaker.mk 2 60 0 none BState.closed) 5 (0 : Nat)
      (Except.error 0 : Except Nat Nat) 0).1 rfl).1
  · exact ((breaker_threshold_and_fail_fast
      (CircuitBreaker.mk 2 60 1 (some 5) BState.closed) 6 (0 : Nat)
      (Except.error 0 : Except Nat Nat) 0).1 rfl).2.2.2.2.1 (by decide)
  · exact (breaker_threshold_and_fail_fast
      (CircuitBreaker.mk 2 60 2 (some 6) BState.opened) 30 (0 : Nat)
      (Except.error 0 : Except Nat Nat) 6).2 rfl rfl (by decide)

/-- C4: for a reachable breaker that is Open, once strictly more than the
cooldown has elapsed since last_failure_time the next call is attempted; a
successful trial resets failure_count to 0 and closes the breaker, a failing
trial re-opens it. -/
theorem breaker_half_open_recovery {ε α : Type}
    (cb : CircuitBreaker) (h : Reach cb) (now t : Nat) (op : Except ε α)
    (hst : cb.state = BState.opened)
    (hlast : cb.last_failure_time = some t)
    (helap : cb.timeout < now - t) :
    (cb.call now op).2.2 = true ∧
    (∀ a : α, op = Except.ok a →
      (cb.call now op).1.state = BState.closed ∧
      (cb.call now op).1.failure_count = 0) ∧
    (∀ e : ε, op = Except.error e →
      (cb.call now op).1.state = BState.opened) := by
  have hres : cb.shouldAttemptReset now = true := by
    simp [CircuitBreaker.shouldAttemptReset, hlast, helap]
  have hop := (reach_invariant cb h).2 hst
  refine ⟨?_, ?_, ?_⟩
  · cases op with
    | ok a => simp [CircuitBreaker.call, hst, hres, CircuitBreaker.runOp]
    | error e => simp [CircuitBreaker.call, hst, hres, CircuitBreaker.runOp]
  · rintro a rfl
    simp [CircuitBreaker.call, hst, hres, CircuitBreaker.runOp, CircuitBreaker.onSuccess]
  · rintro e rfl
    have hth : cb.failure_threshold ≤ cb.failure_count + 1 := Nat.le_succ_of_le hop.1
    simp [CircuitBreaker.call, hst, hres, CircuitBreaker.runOp,
      CircuitBreaker.onFailure, hth]


theorem cbOpenExample_reach : Reach cbOpenExample :=
  Reach.step (CircuitBreaker.init 1 10) 0 (Except.error ()) (Reach.init 1 10)

/-- C4 witness: for the concrete reachable Open breaker, a call after the
cooldown is attempted; a successful one closes the breaker and resets the
count, a failing one re-opens it. -/
theorem breaker_half_open_recovery_witness :
    (cbOpenExample.call 11 (Except.ok () : Except Unit Unit)).2.2 = true ∧
    (cbOpenExample.call 11 (Except.ok () : Except Unit Unit)).1.state = BState.closed ∧
    (cbOpenExample.call 11 (Except.ok () : Except Unit Unit)).1.failure_count = 0 ∧
    (cbOpenExample.call 11 (Except.error () : Except Unit Unit)).1.state = BState.opened := by
  have hok := breaker_half_open_recovery cbOpenExample cbOpenExample_reach 11 0
    (Except.ok () : Except Unit Unit) rfl rfl (by decide)
  have herr := breaker_half_open_recovery cbOpenExample cbOpenExample_reach 11 0
    (Except.error () : Except Unit Unit) rfl rfl (by decide)
  exact ⟨hok.1, (hok.2.1 () rfl).1, (hok.2.1 () rfl).2, herr.2.2 () rfl⟩

/-- C10: in every reachable breaker state, if the state is Open then
last_failure_time is set and failure_count has reached failure_threshold,
and failure_count is non-negative. -/
theorem breaker_open_needs_threshold (cb : CircuitBreaker) (h : Reach cb)
    (hst : cb.state = BState.opened) :
    cb.last_failure_time ≠ none ∧
    cb.failure_threshold ≤ cb.failure_count ∧
    0 ≤ cb.failure_count := by
  have hinv := (reach_invariant cb h).2 hst
  exact ⟨hinv.2, hinv.1, Nat.zero_le _⟩

/-- C10 witness: the invariant evaluated on the concrete reachable Open
breaker. -/
theorem breaker_open_needs_threshold_witness :
    cbOpenExample.last_failure_time ≠ none ∧
    cbOpenExample.failure_threshold ≤ cbOpenExample.failure_count ∧
    0 ≤ cbOpenExample.failure_count :=
  breaker_open_needs_threshold cbOpenExample cbOpenExample_reach rfl

set_option maxRecDepth 400000 in
/-- C8: normalize on the fenced round-trip input returns the record with
invoice_number INV-1 and total 11 (all other fields as given or
defaulted), and on the input whose total is the string not-a-number it
fails with a schema-validation failure instead of coercing the value. -/
theorem normalizer_round_trip :
    normalize sampleFenced = Except.ok sampleRecord ∧
    normalize sampleBadTotal = Except.error NormError.schemaValidationFailed := by
  constructor
  · decide
  · decide

/-- C1: whenever the fingerprint is present in the cache with a stored
record (a non-empty value that parses to a truthy JSON document validating
against the schema), the endpoint returns the cached record and invokes
neither the OCR collaborator nor the AI collaborator. -/
theorem cache_hit_short_circuits
    (cache : CacheBackend) (ocr : Except Unit String)
    (ai : String → Except Unit InvoiceData)
    (s : String) (j : Json) (r : InvoiceData)
    (hget : cache.getR = Except.ok (some s))
    (hne : s ≠ "")
    (hparse : Json.parse s = some j)
    (htru : j.truthy = true)
    (hval : validateInvoiceData j = some r) :
    extract_invoice_text cache ocr ai = (ExtractOutcome.success r, false, false) := by
  simp [extract_invoice_text, cacheServiceGet, hget, hne, hparse, htru, hval]

set_option maxRecDepth 400000 in
/-- C1 witness: a cache holding the serialized sample record under the
fingerprint short-circuits the endpoint with no OCR and no AI work, even
though the AI oracle would fail if consulted. -/
theorem cache_hit_short_circuits_witness :
    extract_invoice_text
        ⟨Except.ok (some sampleCached), Except.ok true⟩
        (Except.ok "Invoice text") (fun _ => Except.error ()) =
      (ExtractOutcome.success sampleRecord, false, false) :=
  cache_hit_short_circuits
    ⟨Except.ok (some sampleCached), Except.ok true⟩
    (Except.ok "Invoice text") (fun _ => Except.error ())
    sampleCached sampleCachedJson sampleRecord
    rfl (by decide) (by rfl) rfl (by decide)

/-- C7: on a cache backend failure, get reports a miss, set reports false
and exists reports false, none of them propagating the failure; and with a
failing backend for both read and write the extraction still succeeds with
the AI result. -/
theorem cache_failure_degrades :
    cacheServiceGet (Except.error ()) = none ∧
    cacheServiceSet (Except.error ()) = false ∧
    cacheServiceCheck (Except.error ()) = false ∧
    (∀ (text : String) (r : InvoiceData) (ai : String → Except Unit InvoiceData),
      ai text = Except.ok r →
      extract_invoice_text ⟨Except.error (), Except.error ()⟩ (Except.ok text) ai =
        (ExtractOutcome.success r, true, true)) := by
  refine ⟨rfl, rfl, rfl, fun text r ai hai => ?_⟩
  simp [extract_invoice_text, cacheServiceGet, extractMissPath, hai]

/-- C7 witness: the degradation law applied to a concrete AI oracle. -/
theorem cache_failure_degrades_witness :
    extract_invoice_text ⟨Except.error (), Except.error ()⟩
        (Except.ok "Invoice text") (fun _ => Except.ok sampleRecord) =
      (ExtractOutcome.success sampleRecord, true, true) :=
  cache_failure_degrades.2.2.2 "Invoice text" sampleRecord
    (fun _ => Except.ok sampleRecord) rfl

/-- C2 (code behavior at the failing input): the error text
"invalid api key" is classified Permanent, yet the retry wrapper does not
re-raise after the first attempt; it performs a second attempt and returns
its successful result. The classification only selects the message prefix,
because the tenacity condition retries every AiServiceError and the body
wraps permanent failures in AiServiceError too. -/
theorem retry_retries_permanent_failure :
    isTransientError "invalid api key" = false ∧
    callGeminiApi permanentThenOk = (Except.ok "second response", 2) := by
  constructor
  · decide
  · rfl

/-- C5: when every one of the three underlying attempts fails, the breaker
registers exactly one failure for the whole logical request (failure_count
rises by one, not by three), and three attempts were performed. -/
theorem breaker_counts_once_per_request
    (cb : CircuitBreaker) (now : Nat) (behavior : Nat → GeminiOutcome)
    (e0 e1 e2 : String)
    (h0 : callGeminiOnce (behavior 0) = Except.error e0)
    (h1 : callGeminiOnce (behavior 1) = Except.error e1)
    (h2 : callGeminiOnce (behavior 2) = Except.error e2)
    (hst : cb.state = BState.closed) :
    (aiCallWithBreaker cb now behavior).1.failure_count = cb.failure_count + 1 ∧
    (aiCallWithBreaker cb now behavior).2.2 = 3 := by
  have hapi : callGeminiApi behavior = (Except.error e2, 3) := by
    simp [callGeminiApi, tenacityRetry, h0, h1, h2]
  constructor <;>
    simp [aiCallWithBreaker, hapi, CircuitBreaker.call, hst,
      CircuitBreaker.runOp, CircuitBreaker.onFailure]

/-- C5 witness: a concrete always-failing behavior against a fresh breaker
with threshold 5 registers one failure and three attempts. -/
theorem breaker_counts_once_per_request_witness :
    (aiCallWithBreaker (CircuitBreaker.init 5 60) 7
        (fun _ => GeminiOutcome.raiseErr "boom")).1.failure_count = 0 + 1 ∧
    (aiCallWithBreaker (CircuitBreaker.init 5 60) 7
        (fun _ => GeminiOutcome.raiseErr "boom")).2.2 = 3 :=
  breaker_counts_once_per_request (CircuitBreaker.init 5 60) 7
    (fun _ => GeminiOutcome.raiseErr "boom")
    "Permanent error from Gemini API: boom"
    "Permanent error from Gemini API: boom"
    "Permanent error from Gemini API: boom"
    rfl rfl rfl rfl

/-- C9: the fingerprint function is deterministic and pure, returns the
64-hex-character SHA-256 digest of exactly the given bytes, and fails with
a ValueError on an absent value. -/
theorem fingerprint_contract :
    calculate_file_hash none = Except.error "file_content cannot be None" ∧
    (∀ b : List Nat, calculate_file_hash (some b) = Except.ok (sha256hex b)) ∧
    (∀ b1 b2 : List Nat, b1 = b2 →
      calculate_file_hash (some b1) = calculate_file_hash (some b2)) ∧
    (∀ b : List Nat, (sha256hex b).length = 64 ∧
      ∀ c ∈ (sha256hex b).data, c ∈ hexDigits) := by
  refine ⟨rfl, fun b => rfl, fun b1 b2 h => by rw [h], fun b => ?_⟩
  exact ⟨sha256hex_length b, fun c hc => sha256hex_hex b c hc⟩

/-- C9 witness: the contract evaluated on the empty byte sequence. -/
theorem fingerprint_contract_witness :
    calculate_file_hash (some []) = Except.ok (sha256hex []) ∧
    calculate_file_hash (some []) = calculate_file_hash (some []) ∧
    (sha256hex []).length = 64 :=
  ⟨fingerprint_contract.2.1 [], fingerprint_contract.2.2.1 [] [] rfl,
   (fingerprint_contract.2.2.2 []).1⟩

end InvoiceAutomation
